import Mathlib

/-!
Shallow embedding of the workout-tracker single-page application.

The primary embedding follows the most complete script variant
(`src/unnamed/part_000`); the unit-conversion helper `toDefaultUnit` and the
time formatter are shared with `src/script.js` (the formatter is identical in
both files).  DOM cards are modelled as flat records (a DOM node is a flat bag
of properties such as `dataset.plannedDuration`, `_timeLeft`, `_elapsed`,
`_countdown`, CSS classes), the global `App` object as `AppState`, and each
`setInterval` handle as a boolean/state flag whose periodic callback is an
explicit `tick` operation.
-/

/-- State of a break card's `_countdown` property: `null`, a live interval id,
or the string flag `'paused'` set by `pauseWorkout`. -/
inductive Cd
  | off
  | running
  | paused
deriving DecidableEq, Repr

/-- One workout card (a DOM node in `#workoutListContainer`).  Exercise cards
use the name/reps/weights/... fields; break cards use the
input/planned/timeLeft/elapsed/countdown/done fields.  `recorded` is the
`.time-display` element's `dataset.seconds` value; `hasInput` records whether
the break's duration `<input>` still exists (building the countdown UI with
`cell.innerHTML = ''` destroys it; `endWorkout` rebuilds it). -/
structure Card where
  isBreak : Bool
  recorded : Nat
  exDone : Bool
  name : String
  reps : Nat
  singleWeight : Rat
  dropsetWeights : List Rat
  unit : String
  dropset : Bool
  difficulty : Nat
  inputValue : Nat
  plannedDuration : Nat
  timeLeft : Nat
  elapsed : Nat
  countdown : Cd
  breakDone : Bool
  hasInput : Bool
deriving DecidableEq, Repr

/-- A saved plan item as written to history by `saveWorkout`
(`{type, name, reps, weights, unit, dropset, difficulty, time}` for exercises,
`{type, duration, time}` for breaks). -/
structure SavedItem where
  isBreak : Bool
  name : String
  reps : Nat
  weights : List Rat
  unit : String
  dropset : Bool
  difficulty : Nat
  duration : Nat
  time : Nat
deriving DecidableEq, Repr

/-- A history entry (`{date, exercises, totalTime}`). -/
structure Workout where
  date : String
  exercises : List SavedItem
  totalTime : Nat
deriving DecidableEq, Repr

/-- `App.settings`. -/
structure Settings where
  defaultUnit : String
  appearance : String
deriving DecidableEq, Repr

/-- The global `App` object plus the DOM state the core logic reads/writes.
`rowTimers[i] = true` models a live `setInterval` stopwatch for card `i`;
`workoutTimerRunning` models `App.workoutTimerId != null`; `modalText` models
the text shown by `showModal`; `now` stands for `new Date().toLocaleString()`.
-/
structure AppState where
  cards : List Card
  rowTimers : List Bool
  activeRowIndex : Option Nat
  workoutStarted : Bool
  btnActive : Bool
  workoutSeconds : Nat
  workoutTimerRunning : Bool
  workouts : List Workout
  settings : Settings
  editIndex : Option Nat
  modalText : Option String
  now : String
deriving DecidableEq, Repr

/-- Initial application state (empty plan, default settings, empty history). -/
def initState : AppState :=
  { cards := []
    rowTimers := []
    activeRowIndex := Option.none
    workoutStarted := false
    btnActive := false
    workoutSeconds := 0
    workoutTimerRunning := false
    workouts := []
    settings := { defaultUnit := "kg", appearance := "light" }
    editIndex := Option.none
    modalText := Option.none
    now := "t0" }

/-- Read `App.rowTimers[i]` (a missing entry is falsy). -/
def getTimer (l : List Bool) (i : Nat) : Bool := l.getD i false

/-- Write `App.rowTimers[i] = b` (JS array assignment extends the array). -/
def setTimer (l : List Bool) (i : Nat) (b : Bool) : List Bool :=
  if i < l.length then l.set i b
  else (l ++ List.replicate (i - l.length) false) ++ [b]

/-- Replace card `i` (no-op when out of range, like a guarded DOM access). -/
def setCard (s : AppState) (i : Nat) (c : Card) : AppState :=
  { s with cards := s.cards.set i c }

/-- `stopRowTimer(index)`: clear the interval if set, and clear
`App.activeRowIndex` when it pointed at this row. -/
def stopRowTimer (s : AppState) (idx : Nat) : AppState :=
  let s1 := if getTimer s.rowTimers idx then
      { s with rowTimers := setTimer s.rowTimers idx false }
    else s
  if s1.activeRowIndex = some idx then { s1 with activeRowIndex := Option.none } else s1

/-- `startRowTimer(index)`: bounds check, stop the currently active row's
timer when it is a different row, then start this row's interval and make it
active. -/
def startRowTimer (s : AppState) (idx : Nat) : AppState :=
  if idx < s.cards.length then
    let s1 := match s.activeRowIndex with
      | some a => if a ≠ idx then stopRowTimer s a else s
      | Option.none => s
    let s2 := { s1 with rowTimers := setTimer s1.rowTimers idx true }
    { s2 with activeRowIndex := some idx }
  else s

/-- A stopwatch interval tick for row `idx` (`elapsed++; display.dataset.seconds
= elapsed`).  The interval closure's counter coincides with the displayed value
on every reachable trace, because the only external write to the display (break
completion) stops this interval in the same callback. -/
def rowTick (s : AppState) (idx : Nat) : AppState :=
  if getTimer s.rowTimers idx then
    match s.cards[idx]? with
    | some c => setCard s idx { c with recorded := c.recorded + 1 }
    | Option.none => s
  else s

/-- A tick of the global workout timer (`App.workoutSeconds++`). -/
def workoutTick (s : AppState) : AppState :=
  if s.workoutTimerRunning then { s with workoutSeconds := s.workoutSeconds + 1 } else s

/-- The auto-advance preamble before `startBreakCountdown(next)`: when the
break's duration `<input>` still exists, copy its value into
`dataset.plannedDuration`; then `_timeLeft = dataset.plannedDuration`,
`_elapsed = 0` (part_000 lines 609-613 / 713-717 / 803-806). -/
def initBreakFromInput (s : AppState) (idx : Nat) : AppState :=
  match s.cards[idx]? with
  | some c =>
    if c.isBreak then
      let planned := if c.hasInput then c.inputValue else c.plannedDuration
      setCard s idx { c with plannedDuration := planned, timeLeft := planned, elapsed := 0 }
    else s
  | Option.none => s

/-- First half of `startBreakCountdown`: normalize `dataset.plannedDuration`
(`parseInt(...) || 60`), then return early when `_countdown` is truthy
(running or the `'paused'` flag).  When proceeding, the countdown UI is built
with `cell.innerHTML = ''`, destroying the duration input (`hasInput := false`).
The boolean reports whether the body proceeds. -/
def sbcPre (s : AppState) (idx : Nat) : AppState × Bool :=
  match s.cards[idx]? with
  | some c =>
    if c.isBreak then
      let planned := if c.plannedDuration = 0 then 60 else c.plannedDuration
      let c1 := { c with plannedDuration := planned }
      if c1.countdown ≠ Cd.off then (setCard s idx c1, false)
      else (setCard s idx { c1 with hasInput := false }, true)
    else (s, false)
  | Option.none => (s, false)

/-- `restartCountdown()`: start the interval if `_timeLeft > 0` and no interval
(or `'paused'` flag) is present. -/
def restartCountdown (s : AppState) (idx : Nat) : AppState :=
  match s.cards[idx]? with
  | some c =>
    if 0 < c.timeLeft ∧ c.countdown = Cd.off then
      setCard s idx { c with countdown := Cd.running }
    else s
  | Option.none => s

/-- `updateDisplay()` of a break card's countdown closure.  On `left <= 0`:
mark `break-done`, clear the interval, record `_elapsed` to the time display,
stop this row's stopwatch and auto-advance (start the next row's stopwatch
and, when the next card is a break, re-initialize and start its countdown —
modelled by inlining `startBreakCountdown`'s body with one unit of fuel
consumed).  Otherwise only cosmetic output changes. -/
def updateDisplay : Nat → AppState → Nat → AppState
  | 0, s, _ => s
  | Nat.succ gas, s, idx =>
    match s.cards[idx]? with
    | some c =>
      if ¬ c.isBreak then s
      else if c.timeLeft = 0 then
        let s1 := setCard s idx { c with breakDone := true, countdown := Cd.off, recorded := c.elapsed }
        let s2 := stopRowTimer s1 idx
        if idx + 1 < s2.cards.length then
          let s3 := startRowTimer s2 (idx + 1)
          match s3.cards[idx + 1]? with
          | some nc =>
            if nc.isBreak then
              let p := sbcPre (initBreakFromInput s3 (idx + 1)) (idx + 1)
              if p.2 then restartCountdown (updateDisplay gas p.1 (idx + 1)) (idx + 1) else p.1
            else s3
          | Option.none => s3
        else s2
      else s
    | Option.none => s

/-- `startBreakCountdown(breakCard)`: preamble + early-return check, then the
initial `updateDisplay()` render (which can complete immediately and chain)
and `restartCountdown()`. -/
def startBreakCountdown (gas : Nat) (s : AppState) (idx : Nat) : AppState :=
  let p := sbcPre s idx
  if p.2 then restartCountdown (updateDisplay gas p.1 idx) idx else p.1

/-- Fuel that always suffices for the forward-only auto-advance chain. -/
def defaultGas (s : AppState) : Nat := s.cards.length + 1

/-- A countdown interval tick: `_timeLeft = max(0, _timeLeft - 1); _elapsed++`
followed by `updateDisplay()`.  Fires only while the interval is live. -/
def breakTick (s : AppState) (idx : Nat) : AppState :=
  match s.cards[idx]? with
  | some c =>
    if c.isBreak ∧ c.countdown = Cd.running then
      let s1 := setCard s idx { c with timeLeft := c.timeLeft - 1, elapsed := c.elapsed + 1 }
      updateDisplay (defaultGas s1) s1 idx
    else s
  | Option.none => s

/-- The `+10s` button: `_timeLeft += 10; updateDisplay(); restartCountdown()`.
Note that part_000 has no `clearCompleteState` (unlike script.js), so the
`break-done` mark is not removed here. -/
def btnAdd (s : AppState) (idx : Nat) : AppState :=
  match s.cards[idx]? with
  | some c =>
    if c.isBreak then
      let s1 := setCard s idx { c with timeLeft := c.timeLeft + 10 }
      restartCountdown (updateDisplay (defaultGas s1) s1 idx) idx
    else s
  | Option.none => s

/-- The `-10s` button: `_timeLeft = max(0, _timeLeft - 10); updateDisplay();
restartCountdown()`. -/
def btnSub (s : AppState) (idx : Nat) : AppState :=
  match s.cards[idx]? with
  | some c =>
    if c.isBreak then
      let s1 := setCard s idx { c with timeLeft := c.timeLeft - 10 }
      restartCountdown (updateDisplay (defaultGas s1) s1 idx) idx
    else s
  | Option.none => s

/-- The `Reset` button: `_timeLeft = dataset.plannedDuration; _elapsed = 0;
updateDisplay(); restartCountdown()`. -/
def btnReset (s : AppState) (idx : Nat) : AppState :=
  match s.cards[idx]? with
  | some c =>
    if c.isBreak then
      let s1 := setCard s idx { c with timeLeft := c.plannedDuration, elapsed := 0 }
      restartCountdown (updateDisplay (defaultGas s1) s1 idx) idx
    else s
  | Option.none => s

/-- The `Skip` button: `_timeLeft = 0; updateDisplay()` (no restart). -/
def btnSkip (s : AppState) (idx : Nat) : AppState :=
  match s.cards[idx]? with
  | some c =>
    if c.isBreak then
      let s1 := setCard s idx { c with timeLeft := 0 }
      updateDisplay (defaultGas s1) s1 idx
    else s
  | Option.none => s

/-- `pauseWorkout()`: clear every row interval (keeping `App.activeRowIndex`),
set `workoutStarted = false`, stop the global timer, and set `_countdown =
'paused'` on break cards with a truthy `_countdown` that do NOT carry the
`break-done` class. -/
def pauseWorkout (s : AppState) : AppState :=
  let s1 := { s with rowTimers := s.rowTimers.map (fun _ => false),
                     workoutStarted := false, workoutTimerRunning := false }
  { s1 with cards := s1.cards.map (fun c =>
      if c.isBreak ∧ c.countdown ≠ Cd.off ∧ ¬ c.breakDone then { c with countdown := Cd.paused }
      else c) }

/-- `endWorkout()`: stop all row intervals, clear `activeRowIndex`, stop the
global timer, and for in-progress breaks (truthy `_countdown`, not
`break-done`) clear the interval and rebuild the duration input with
`value = dataset.plannedDuration`. -/
def endWorkout (s : AppState) : AppState :=
  let s1 := { s with rowTimers := s.rowTimers.map (fun _ => false),
                     activeRowIndex := Option.none,
                     workoutStarted := false, workoutTimerRunning := false }
  { s1 with cards := s1.cards.map (fun c =>
      if c.isBreak ∧ c.countdown ≠ Cd.off ∧ ¬ c.breakDone then
        { c with countdown := Cd.off, inputValue := c.plannedDuration, hasInput := true }
      else c) }

/-- `completeRow(card)`: for a break, clear its countdown, mark `break-done`
and record `_elapsed` to the time display; for an exercise, mark done.  Stop
this row's stopwatch, then auto-advance: start the next row (and its countdown
when it is a break) while the workout is running, or just move
`activeRowIndex` when it is not; after the last row, pause the workout. -/
def completeRow (s : AppState) (idx : Nat) : AppState :=
  match s.cards[idx]? with
  | Option.none => s
  | some c =>
    let s1 := if c.isBreak then
        setCard s idx { c with countdown := Cd.off, breakDone := true, recorded := c.elapsed }
      else setCard s idx { c with exDone := true }
    let s2 := stopRowTimer s1 idx
    if idx + 1 < s2.cards.length then
      if s2.workoutStarted then
        let s3 := startRowTimer s2 (idx + 1)
        match s3.cards[idx + 1]? with
        | some nc =>
          if nc.isBreak then
            startBreakCountdown (defaultGas s3) (initBreakFromInput s3 (idx + 1)) (idx + 1)
          else s3
        | Option.none => s3
      else { s2 with activeRowIndex := some (idx + 1) }
    else
      let s3 := pauseWorkout s2
      { s3 with btnActive := false }

/-- Resume loop of `startWorkout()`: for each break card whose `_countdown` is
the `'paused'` flag, clear the flag and call `startBreakCountdown`. -/
def resumeCountdowns (s : AppState) : AppState :=
  (List.range s.cards.length).foldl (fun acc i =>
    match acc.cards[i]? with
    | some c =>
      if c.isBreak ∧ c.countdown = Cd.paused then
        startBreakCountdown (defaultGas acc) (setCard acc i { c with countdown := Cd.off }) i
      else acc
    | Option.none => acc) s

/-- `startWorkout()` (the Start/End/Resume button): when active, pause; with
an empty plan, show the blocking notice and abort; on a fresh start
(`!workoutStarted && workoutSeconds === 0`) start row 0 (and its countdown if
a break) and reset the session stopwatch; otherwise resume the active row's
stopwatch and any paused countdowns.  Finally mark the session running and
start the global timer. -/
def startWorkout (s : AppState) : AppState :=
  if s.btnActive then
    let s1 := pauseWorkout s
    { s1 with btnActive := false }
  else if s.cards.length = 0 then
    { s with modalText := some ("Add at least one exercise first.") }
  else
    let s1 :=
      if s.workoutStarted = false ∧ s.workoutSeconds = 0 then
        let sA := startRowTimer s 0
        let sB := match sA.cards[0]? with
          | some c0 =>
            if c0.isBreak then startBreakCountdown (defaultGas sA) (initBreakFromInput sA 0) 0
            else sA
          | Option.none => sA
        { sB with workoutSeconds := 0 }
      else
        let sA := match s.activeRowIndex with
          | some i => startRowTimer s i
          | Option.none => s
        resumeCountdowns sA
    { s1 with btnActive := true, workoutStarted := true, workoutTimerRunning := true }

/-- `addExercise(ex)` input object (JS defaults: reps 10, difficulty 5). -/
structure ExInit where
  name : String := ""
  reps : Nat := 10
  weight : Rat := 0
  unit : String := ""
  dropset : Bool := false
  weights : List Rat := []
  difficulty : Nat := 5

/-- `addExercise(ex)`: append an exercise card; the unit select falls back to
the default unit and is normalized to kg/lbs. -/
def addExercise (s : AppState) (ex : ExInit) : AppState :=
  let u0 := if ex.unit = "" then s.settings.defaultUnit else ex.unit
  let card : Card :=
    { isBreak := false, recorded := 0, exDone := false, name := ex.name, reps := ex.reps
      singleWeight := if ex.dropset then 0 else ex.weights.headD ex.weight
      dropsetWeights := if ex.dropset then ex.weights else []
      unit := if u0 = "kg" then "kg" else "lbs"
      dropset := ex.dropset, difficulty := ex.difficulty
      inputValue := 0, plannedDuration := 0, timeLeft := 0, elapsed := 0
      countdown := Cd.off, breakDone := false, hasInput := false }
  { s with cards := s.cards ++ [card] }

/-- `addBreak(br)`: append a break card with
`duration = parseInt(br.duration || 60) || 60`, `_timeLeft = duration`,
`_elapsed = 0`, `_countdown = null`. -/
def addBreak (s : AppState) (d : Nat) : AppState :=
  let duration := if d = 0 then 60 else d
  let card : Card :=
    { isBreak := true, recorded := 0, exDone := false, name := "", reps := 0
      singleWeight := 0, dropsetWeights := [], unit := "", dropset := false, difficulty := 0
      inputValue := duration, plannedDuration := duration, timeLeft := duration, elapsed := 0
      countdown := Cd.off, breakDone := false, hasInput := true }
  { s with cards := s.cards ++ [card] }

/-- The per-card remove button (`card.remove()`): detaches the card only —
its row timer entry and the global flags are untouched. -/
def removeCard (s : AppState) (idx : Nat) : AppState :=
  { s with cards := s.cards.eraseIdx idx }

/-- Reading one card back into a history item inside `saveWorkout`. -/
def readCard (defUnit : String) (c : Card) : SavedItem :=
  if c.isBreak then
    { isBreak := true, name := "", reps := 0, weights := [], unit := "", dropset := false
      difficulty := 0
      duration := if c.plannedDuration ≠ 0 then c.plannedDuration
                  else if c.hasInput then c.inputValue else 0
      time := c.recorded }
  else
    { isBreak := false, name := c.name, reps := c.reps
      weights := if c.dropset then c.dropsetWeights else [c.singleWeight]
      unit := if c.unit = "" then defUnit else c.unit
      dropset := c.dropset, difficulty := c.difficulty, duration := 0, time := c.recorded }

/-- `saveWorkout()`: end the workout first when running, then reject an empty
plan with the blocking notice; otherwise snapshot all cards, compute
`totalTime = workoutSeconds > 0 ? workoutSeconds : sum of item times`, write
to history (replace at `editIndex` or append), and reset the planning area. -/
def saveWorkout (s : AppState) : AppState :=
  let s0 := if s.workoutStarted then endWorkout s else s
  if s0.cards.length = 0 then { s0 with modalText := some ("Add at least one exercise!") }
  else
    let items := s0.cards.map (readCard s0.settings.defaultUnit)
    let total := if 0 < s0.workoutSeconds then s0.workoutSeconds
                 else (items.map SavedItem.time).sum
    let w : Workout := { date := s0.now, exercises := items, totalTime := total }
    let s1 := match s0.editIndex with
      | some i => { s0 with workouts := s0.workouts.set i w, editIndex := Option.none }
      | Option.none => { s0 with workouts := s0.workouts ++ [w] }
    { s1 with cards := [], workoutSeconds := 0, workoutStarted := false, btnActive := false }

/-- Non-break items of a session (`exercises.filter(e => e.type !== 'break')`). -/
def nonBreakItems (w : Workout) : List SavedItem :=
  w.exercises.filter (fun e => ¬ e.isBreak)

/-- Average difficulty of a session for the "__all" filter (0 when the session
has no non-break items). -/
def avgDifficulty (w : Workout) : Rat :=
  let exs := nonBreakItems w
  if exs.length = 0 then 0
  else ((exs.map (fun e => (e.difficulty : Rat))).sum) / (exs.length : Rat)

/-- One item's volume in `buildProgressData`:
`weights.reduce((a,b) => a + parseFloat(b||0), 0) * (parseInt(ex.reps || 1) || 1)`.
No unit conversion is applied here. -/
def itemVolume (e : SavedItem) : Rat :=
  (e.weights.foldl (· + ·) 0) * (if e.reps = 0 then 1 else (e.reps : Rat))

/-- Session volume for the "__all" filter. -/
def sessionVolume (w : Workout) : Rat :=
  ((nonBreakItems w).map itemVolume).sum

/-- A break item's contribution, `parseInt(br.time || br.duration || 0) || 0`:
the recorded time, except that a falsy (zero) time falls back to the planned
duration. -/
def breakContribution (e : SavedItem) : Nat :=
  if e.time ≠ 0 then e.time else e.duration

/-- Total break time of a session for the "__all" filter. -/
def sessionBreakAll (w : Workout) : Nat :=
  ((w.exercises.filter (fun e => e.isBreak)).map breakContribution).sum

/-- JavaScript `String.prototype.trim()`: strip leading and trailing
whitespace characters. -/
def jsTrim (s : String) : String :=
  let ws := fun ch : Char => ch = ' ' ∨ ch = '\t' ∨ ch = '\n' ∨ ch = '\r'
  String.mk (((s.toList.dropWhile (fun ch => decide (ws ch))).reverse.dropWhile
    (fun ch => decide (ws ch))).reverse)

/-- The name filter used for a specific exercise:
`ex.type !== 'break' && ex.name && ex.name.trim() === selected`. -/
def nameMatches (sel : String) (e : SavedItem) : Bool :=
  (¬ e.isBreak) && (e.name ≠ "") && (jsTrim e.name = sel)

/-- Items of a session matching the selected exercise name. -/
def matchesIn (sel : String) (w : Workout) : List SavedItem :=
  w.exercises.filter (nameMatches sel)

/-- Filtered per-session duration: sum of matching items' recorded times. -/
def filteredDuration (sel : String) (w : Workout) : Nat :=
  ((matchesIn sel w).map SavedItem.time).sum

/-- Filtered per-session average difficulty (called only on sessions with at
least one match; guarded by 0 to stay total). -/
def filteredDifficulty (sel : String) (w : Workout) : Rat :=
  let m := matchesIn sel w
  if m.length = 0 then 0
  else ((m.map (fun e => (e.difficulty : Rat))).sum) / (m.length : Rat)

/-- Filtered per-session volume: sum of matching items' volumes. -/
def filteredVolume (sel : String) (w : Workout) : Rat :=
  ((matchesIn sel w).map itemVolume).sum

/-- The `afters` loop: contributions of break items immediately following a
matching exercise item (`exs[i].type === 'exercise' && name matches &&
exs[i+1] && exs[i+1].type === 'break'`). -/
def aftersVals (sel : String) : List SavedItem → List Nat
  | [] => []
  | [_] => []
  | a :: b :: rest =>
    (if nameMatches sel a ∧ b.isBreak then [breakContribution b] else [])
      ++ aftersVals sel (b :: rest)

/-- Filtered per-session break time: average of `aftersVals` (0 when empty). -/
def filteredBreak (sel : String) (w : Workout) : Rat :=
  let a := aftersVals sel w.exercises
  if a.length = 0 then 0
  else ((a.map (fun n => (n : Rat))).sum) / (a.length : Rat)

/-- The record returned by `buildProgressData`. -/
structure ProgressData where
  labels : List String
  difficultyData : List Rat
  weightData : List Rat
  durationData : List Nat
  breakData : List Rat
deriving DecidableEq, Repr

/-- `buildProgressData(selected)` over a history list: per-session series for
"__all", or series over sessions containing a matching item otherwise (the
JS forEach-push is expressed as filter-then-map); an empty label list yields
the single synthetic "No data" point. -/
def buildProgressData (ws : List Workout) (sel : String) : ProgressData :=
  let d : ProgressData :=
    if sel = "__all" then
      { labels := ws.map Workout.date
        difficultyData := ws.map avgDifficulty
        weightData := ws.map sessionVolume
        durationData := ws.map Workout.totalTime
        breakData := ws.map (fun w => ((sessionBreakAll w : Nat) : Rat)) }
    else
      let m := ws.filter (fun w => (matchesIn sel w).length ≠ 0)
      { labels := m.map Workout.date
        difficultyData := m.map (filteredDifficulty sel)
        weightData := m.map (filteredVolume sel)
        durationData := m.map (filteredDuration sel)
        breakData := m.map (filteredBreak sel) }
  if d.labels.length = 0 then
    { labels := ["No data"], difficultyData := [0], weightData := [0]
      durationData := [0], breakData := [0] }
  else d

/-- `toDefaultUnit(value, unit)` from script.js: convert a weight to the
configured default unit with factors 0.453592 (lbs to kg) and 2.20462
(kg to lbs); a falsy value yields 0, and an unrecognized pairing is returned
unchanged. -/
def toDefaultUnit (st : Settings) (value : Rat) (unit : String) : Rat :=
  let d := if st.defaultUnit = "" then "kg" else st.defaultUnit
  if value = 0 then 0
  else if unit = d then value
  else if d = "kg" ∧ unit = "lbs" then value * (453592 / 1000000 : Rat)
  else if d = "lbs" ∧ unit = "kg" then value * (220462 / 100000 : Rat)
  else value

/-- `padStart(2, '0')` on a natural number's decimal representation. -/
def pad2 (n : Nat) : String :=
  let r := Nat.repr n
  if r.length < 2 then String.mk (List.replicate (2 - r.length) '0') ++ r else r

/-- `fmtTime(secs)` (identical `formatTime` in script.js):
`s = Math.max(0, parseInt(secs) || 0)`, then `H:MM:SS` when at least one hour,
otherwise `MM:SS`. -/
def fmtTime (secs : Int) : String :=
  let s := secs.toNat
  let h := s / 3600
  let m := (s % 3600) / 60
  let ss := s % 60
  if 0 < h then Nat.repr h ++ ":" ++ pad2 m ++ ":" ++ pad2 ss
  else pad2 m ++ ":" ++ pad2 ss

/-- `parseInt` on an arbitrary input produces NaN for non-numeric input, which
`|| 0` turns into 0; this wrapper models that entry point. -/
def fmtTimeInput : Option Int → String
  | Option.none => fmtTime 0
  | some v => fmtTime v

/-- The pair of break fields that the auto-advance reinitializes. -/
def tlEl (c : Card) : Nat × Nat := (c.timeLeft, c.elapsed)

theorem setCard_get_ne {s : AppState} {j : Nat} {c : Card} {i : Nat} (h : j ≠ i) :
    (setCard s j c).cards[i]? = s.cards[i]? :=
  List.getElem?_set_ne h

theorem setCard_get_self {s : AppState} {j : Nat} {c0 c : Card} (h : s.cards[j]? = some c0) :
    (setCard s j c).cards[j]? = some c :=
  List.getElem?_set_eq_of_lt c (List.getElem?_eq_some.mp h).1

theorem stopRowTimer_cards (s : AppState) (i : Nat) : (stopRowTimer s i).cards = s.cards := by
  simp only [stopRowTimer]
  split <;> split <;> rfl

theorem stopRowTimer_started (s : AppState) (i : Nat) :
    (stopRowTimer s i).workoutStarted = s.workoutStarted := by
  simp only [stopRowTimer]
  split <;> split <;> rfl

theorem startRowTimer_cards (s : AppState) (i : Nat) : (startRowTimer s i).cards = s.cards := by
  simp only [startRowTimer]
  split
  · split
    · split <;> simp [stopRowTimer_cards]
    · rfl
  · rfl

theorem startRowTimer_started (s : AppState) (i : Nat) :
    (startRowTimer s i).workoutStarted = s.workoutStarted := by
  simp only [startRowTimer]
  split
  · split
    · split <;> simp [stopRowTimer_started]
    · rfl
  · rfl

theorem initBreak_get_ne {s : AppState} {j i : Nat} (h : j ≠ i) :
    (initBreakFromInput s j).cards[i]? = s.cards[i]? := by
  simp only [initBreakFromInput]
  split
  · split
    · exact setCard_get_ne h
    · rfl
  · rfl

theorem sbcPre_get_ne {s : AppState} {j i : Nat} (h : j ≠ i) :
    ((sbcPre s j).1).cards[i]? = s.cards[i]? := by
  simp only [sbcPre]
  split
  · split
    · split <;> exact setCard_get_ne h
    · rfl
  · rfl

theorem restartCountdown_get_ne {s : AppState} {j i : Nat} (h : j ≠ i) :
    (restartCountdown s j).cards[i]? = s.cards[i]? := by
  simp only [restartCountdown]
  split
  · split
    · exact setCard_get_ne h
    · rfl
  · rfl

theorem updateDisplay_get_lt :
    ∀ (gas : Nat) (s : AppState) (j i : Nat), i < j →
      (updateDisplay gas s j).cards[i]? = s.cards[i]? := by
  intro gas
  induction gas with
  | zero => intro s j i _; rfl
  | succ g ih =>
    intro s j i hij
    have hne : j ≠ i := by omega
    have hne1 : j + 1 ≠ i := by omega
    simp only [updateDisplay]
    split
    case h_1 c hc =>
      split
      · rfl
      · split
        · split
          · split
            case h_1 nc hnc =>
              split
              · split
                · rw [restartCountdown_get_ne hne1, ih _ _ _ (by omega), sbcPre_get_ne hne1,
                      initBreak_get_ne hne1, startRowTimer_cards, stopRowTimer_cards]
                  exact setCard_get_ne hne
                · rw [sbcPre_get_ne hne1, initBreak_get_ne hne1, startRowTimer_cards,
                      stopRowTimer_cards]
                  exact setCard_get_ne hne
              · rw [startRowTimer_cards, stopRowTimer_cards]
                exact setCard_get_ne hne
            case h_2 =>
              rw [startRowTimer_cards, stopRowTimer_cards]
              exact setCard_get_ne hne
          · rw [stopRowTimer_cards]
            exact setCard_get_ne hne
        · rfl
    case h_2 => rfl

theorem sbcPre_te (s : AppState) (j : Nat) :
    (((sbcPre s j).1).cards[j]?).map tlEl = (s.cards[j]?).map tlEl := by
  simp only [sbcPre]
  split
  case h_1 c hc =>
    split
    · split <;> rw [setCard_get_self hc, hc] <;> rfl
    · rfl
  case h_2 => rfl

theorem restartCountdown_te (s : AppState) (j : Nat) :
    ((restartCountdown s j).cards[j]?).map tlEl = (s.cards[j]?).map tlEl := by
  simp only [restartCountdown]
  split
  case h_1 c hc =>
    split
    · rw [setCard_get_self hc, hc]; rfl
    · rfl
  case h_2 => rfl

theorem updateDisplay_te (gas : Nat) (s : AppState) (j : Nat) :
    ((updateDisplay gas s j).cards[j]?).map tlEl = (s.cards[j]?).map tlEl := by
  cases gas with
  | zero => rfl
  | succ g =>
    have hne : j + 1 ≠ j := by omega
    simp only [updateDisplay]
    split
    case h_1 c hc =>
      split
      · rfl
      · split
        · split
          · split
            case h_1 nc hnc =>
              split
              · split
                · rw [restartCountdown_get_ne hne, updateDisplay_get_lt _ _ _ _ (by omega),
                      sbcPre_get_ne hne, initBreak_get_ne hne, startRowTimer_cards,
                      stopRowTimer_cards, setCard_get_self hc, hc]
                  rfl
                · rw [sbcPre_get_ne hne, initBreak_get_ne hne, startRowTimer_cards,
                      stopRowTimer_cards, setCard_get_self hc, hc]
                  rfl
              · rw [startRowTimer_cards, stopRowTimer_cards, setCard_get_self hc, hc]; rfl
            case h_2 =>
              rw [startRowTimer_cards, stopRowTimer_cards, setCard_get_self hc, hc]; rfl
          · rw [stopRowTimer_cards, setCard_get_self hc, hc]; rfl
        · rfl
    case h_2 => rfl

theorem initBreak_te_self {s : AppState} {j : Nat} {nc : Card}
    (hn : s.cards[j]? = some nc) (hnb : nc.isBreak = true) :
    ((initBreakFromInput s j).cards[j]?).map tlEl
      = some (if nc.hasInput then nc.inputValue else nc.plannedDuration, 0) := by
  simp only [initBreakFromInput, hn, hnb, if_true]
  rw [setCard_get_self hn]
  rfl

theorem sbcInit_te (gas : Nat) {s : AppState} {j : Nat} {nc : Card}
    (hn : s.cards[j]? = some nc) (hnb : nc.isBreak = true) :
    ((startBreakCountdown gas (initBreakFromInput s j) j).cards[j]?).map tlEl
      = some (if nc.hasInput then nc.inputValue else nc.plannedDuration, 0) := by
  simp only [startBreakCountdown]
  split
  · rw [restartCountdown_te, updateDisplay_te, sbcPre_te]
    exact initBreak_te_self hn hnb
  · rw [sbcPre_te]
    exact initBreak_te_self hn hnb

theorem updateDisplay_complete_rec (gas : Nat) {s : AppState} {j : Nat} {c : Card}
    (h : s.cards[j]? = some c) (hb : c.isBreak = true) (h0 : c.timeLeft = 0) :
    ((updateDisplay (gas + 1) s j).cards[j]?).map Card.recorded = some c.elapsed := by
  have hne1 : j + 1 ≠ j := by omega
  simp only [updateDisplay, h, hb, h0, not_true, if_false, if_true, reduceIte]
  split
  · split
    case h_1 nc hnc =>
      split
      · split
        · rw [restartCountdown_get_ne hne1, updateDisplay_get_lt _ _ _ _ (by omega),
              sbcPre_get_ne hne1, initBreak_get_ne hne1, startRowTimer_cards,
              stopRowTimer_cards, setCard_get_self h]
          rfl
        · rw [sbcPre_get_ne hne1, initBreak_get_ne hne1, startRowTimer_cards,
              stopRowTimer_cards, setCard_get_self h]
          rfl
      · rw [startRowTimer_cards, stopRowTimer_cards, setCard_get_self h]; rfl
    case h_2 =>
      rw [startRowTimer_cards, stopRowTimer_cards, setCard_get_self h]; rfl
  · rw [stopRowTimer_cards, setCard_get_self h]; rfl

theorem updateDisplay_complete_advance (gas : Nat) {s : AppState} {j : Nat} {c nc : Card}
    (h : s.cards[j]? = some c) (hb : c.isBreak = true) (h0 : c.timeLeft = 0)
    (hn : s.cards[j + 1]? = some nc) (hnb : nc.isBreak = true) :
    ((updateDisplay (gas + 1) s j).cards[j + 1]?).map tlEl
      = some (if nc.hasInput then nc.inputValue else nc.plannedDuration, 0) := by
  have hne1 : j ≠ j + 1 := by omega
  have hlen : j + 1 < s.cards.length := (List.getElem?_eq_some.mp hn).1
  simp only [updateDisplay, h, hb, h0, not_true, if_false, if_true, reduceIte]
  split
  case isTrue hlt =>
    have hget : ∀ c' : Card,
        (startRowTimer (stopRowTimer (setCard s j c') j) (j + 1)).cards[j + 1]? = some nc := by
      intro c'
      rw [startRowTimer_cards, stopRowTimer_cards, setCard_get_ne hne1]
      exact hn
    split
    case h_1 nc' hnc' =>
      rw [hget] at hnc'
      cases hnc'
      rw [if_pos hnb]
      exact sbcInit_te gas (hget _) hnb
    case h_2 hnone =>
      rw [hget] at hnone
      cases hnone
  case isFalse hlt =>
    exact absurd (by rw [stopRowTimer_cards, setCard]; simpa using hlen) hlt

theorem sbc_get_lt (gas : Nat) {s : AppState} {j i : Nat} (h : i < j) :
    (startBreakCountdown gas s j).cards[i]? = s.cards[i]? := by
  have hne : j ≠ i := by omega
  simp only [startBreakCountdown]
  split
  · rw [restartCountdown_get_ne hne, updateDisplay_get_lt _ _ _ _ h, sbcPre_get_ne hne]
  · rw [sbcPre_get_ne hne]

theorem pauseWorkout_rec (s : AppState) (i : Nat) :
    ((pauseWorkout s).cards[i]?).map Card.recorded = (s.cards[i]?).map Card.recorded := by
  simp only [pauseWorkout, List.getElem?_map]
  cases s.cards[i]? with
  | none => rfl
  | some c =>
    simp only [Option.map_some']
    split <;> rfl

theorem completeRow_break_rec {s : AppState} {idx : Nat} {c : Card}
    (h : s.cards[idx]? = some c) (hb : c.isBreak = true) :
    ((completeRow s idx).cards[idx]?).map Card.recorded = some c.elapsed := by
  have hne1 : idx + 1 ≠ idx := by omega
  simp only [completeRow, h, hb, if_true, reduceIte]
  split
  · split
    · split
      case h_1 nc hnc =>
        split
        · rw [sbc_get_lt _ (by omega), initBreak_get_ne hne1, startRowTimer_cards,
              stopRowTimer_cards, setCard_get_self h]
          rfl
        · rw [startRowTimer_cards, stopRowTimer_cards, setCard_get_self h]; rfl
      case h_2 =>
        rw [startRowTimer_cards, stopRowTimer_cards, setCard_get_self h]; rfl
    · show (((stopRowTimer (setCard s idx _) idx).cards)[idx]?).map Card.recorded = _
      rw [stopRowTimer_cards, setCard_get_self h]; rfl
  · show (((pauseWorkout (stopRowTimer (setCard s idx _) idx)).cards)[idx]?).map Card.recorded = _
    rw [pauseWorkout_rec, stopRowTimer_cards, setCard_get_self h]; rfl

/-- C1: whenever a break item is taken to completion — skipped via the Skip
button, marked done manually via `completeRow`, or finishing naturally on the
countdown tick that reaches zero — the value written to its time display
(the item's final recorded `elapsedSeconds`) is exactly the `_elapsed` counter
accumulated so far: the observed countdown ticks, not the planned duration and
not planned-minus-remaining. -/
theorem break_elapsed_truth (s : AppState) (idx : Nat) (c : Card)
    (h : s.cards[idx]? = some c) (hb : c.isBreak = true) :
    (((btnSkip s idx).cards[idx]?).map Card.recorded = some c.elapsed)
    ∧ (((completeRow s idx).cards[idx]?).map Card.recorded = some c.elapsed)
    ∧ (c.countdown = Cd.running → c.timeLeft = 1 →
        ((breakTick s idx).cards[idx]?).map Card.recorded = some (c.elapsed + 1)
        ∧ ((breakTick s idx).cards[idx]?).map Card.elapsed = some (c.elapsed + 1)) := by
  refine ⟨?_, completeRow_break_rec h hb, ?_⟩
  · simp only [btnSkip, h, if_pos hb, defaultGas]
    exact updateDisplay_complete_rec (c := { c with timeLeft := 0 }) _ (setCard_get_self h) hb rfl
  · intro hcd h1
    have hcond : c.isBreak = true ∧ c.countdown = Cd.running := ⟨hb, hcd⟩
    simp only [breakTick, h, if_pos hcond, defaultGas]
    have hself : (setCard s idx { c with timeLeft := c.timeLeft - 1, elapsed := c.elapsed + 1
        }).cards[idx]? = some { c with timeLeft := c.timeLeft - 1, elapsed := c.elapsed + 1 } :=
      setCard_get_self h
    have h0 : ({ c with timeLeft := c.timeLeft - 1, elapsed := c.elapsed + 1 } : Card).timeLeft
        = 0 := by simp [h1]
    have hrec := updateDisplay_complete_rec
      ((setCard s idx { c with timeLeft := c.timeLeft - 1, elapsed := c.elapsed + 1
        }).cards.length) hself hb h0
    have hte := updateDisplay_te
      ((setCard s idx { c with timeLeft := c.timeLeft - 1, elapsed := c.elapsed + 1
        }).cards.length + 1)
      (setCard s idx { c with timeLeft := c.timeLeft - 1, elapsed := c.elapsed + 1 }) idx
    rw [hself] at hte
    constructor
    · exact hrec
    · cases hx : (updateDisplay
        ((setCard s idx { c with timeLeft := c.timeLeft - 1, elapsed := c.elapsed + 1
          }).cards.length + 1)
        (setCard s idx { c with timeLeft := c.timeLeft - 1, elapsed := c.elapsed + 1 })
        idx).cards[idx]? with
      | none => rw [hx] at hrec; cases hrec
      | some x =>
        rw [hx] at hte
        have htx : tlEl x = (c.timeLeft - 1, c.elapsed + 1) := by
          simpa [tlEl] using hte
        have hx2 : x.elapsed = c.elapsed + 1 := congrArg Prod.snd htx
        simp [hx2]

theorem setCard_started (s : AppState) (i : Nat) (c : Card) :
    (setCard s i c).workoutStarted = s.workoutStarted := rfl

theorem setCard_length (s : AppState) (i : Nat) (c : Card) :
    (setCard s i c).cards.length = s.cards.length := by
  simp [setCard]

/-- C9: whenever control advances into a break item — by manual completion of
the previous item while the workout is running, or by a preceding break's
countdown reaching zero — the break's countdown state is reinitialized before
it starts ticking: `remainingSeconds` becomes the value currently entered in
its duration field (`inputValue`; the stored `plannedDuration` when a previous
activation already replaced that field with the countdown UI) and
`elapsedSeconds` is reset to 0, discarding any state held earlier. -/
theorem break_reinit_on_advance (s : AppState) (idx : Nat) (c nc : Card)
    (h : s.cards[idx]? = some c) (hn : s.cards[idx + 1]? = some nc)
    (hnb : nc.isBreak = true) (hw : s.workoutStarted = true) :
    (((completeRow s idx).cards[idx + 1]?).map tlEl
        = some (if nc.hasInput then nc.inputValue else nc.plannedDuration, 0))
    ∧ (c.isBreak = true → c.countdown = Cd.running → c.timeLeft = 1 →
        ((breakTick s idx).cards[idx + 1]?).map tlEl
          = some (if nc.hasInput then nc.inputValue else nc.plannedDuration, 0)) := by
  have hne : idx ≠ idx + 1 := by omega
  have hlen : idx + 1 < s.cards.length := (List.getElem?_eq_some.mp hn).1
  constructor
  · simp only [completeRow, h]
    split
    all_goals
      simp only [stopRowTimer_cards, stopRowTimer_started, setCard_started, setCard_length,
        startRowTimer_cards, setCard_get_ne hne, hn, hw, hlen, if_true, reduceIte, hnb]
    all_goals
      refine sbcInit_te _ ?_ hnb
    all_goals
      rw [startRowTimer_cards, stopRowTimer_cards, setCard_get_ne hne]
    all_goals exact hn
  · intro hb hcd h1
    have hcond : c.isBreak = true ∧ c.countdown = Cd.running := ⟨hb, hcd⟩
    simp only [breakTick, h, if_pos hcond, defaultGas]
    have hself : (setCard s idx { c with timeLeft := c.timeLeft - 1, elapsed := c.elapsed + 1
        }).cards[idx]? = some { c with timeLeft := c.timeLeft - 1, elapsed := c.elapsed + 1 } :=
      setCard_get_self h
    have h0 : ({ c with timeLeft := c.timeLeft - 1, elapsed := c.elapsed + 1 } : Card).timeLeft
        = 0 := by simp [h1]
    have hn1 : (setCard s idx { c with timeLeft := c.timeLeft - 1, elapsed := c.elapsed + 1
        }).cards[idx + 1]? = some nc := by
      rw [setCard_get_ne hne]; exact hn
    exact updateDisplay_complete_advance _ hself hb h0 hn1 hnb

theorem endWorkout_editIndex (s : AppState) : (endWorkout s).editIndex = s.editIndex := rfl

theorem endWorkout_workouts (s : AppState) : (endWorkout s).workouts = s.workouts := rfl

theorem endWorkout_seconds (s : AppState) : (endWorkout s).workoutSeconds = s.workoutSeconds := rfl

theorem endWorkout_now (s : AppState) : (endWorkout s).now = s.now := rfl

theorem endWorkout_settings (s : AppState) : (endWorkout s).settings = s.settings := rfl

theorem endWorkout_cards_len (s : AppState) : (endWorkout s).cards.length = s.cards.length := by
  simp [endWorkout]

theorem readCard_time (d : String) (c : Card) : (readCard d c).time = c.recorded := by
  simp only [readCard]
  split <;> rfl

theorem endWorkout_items_time (s : AppState) (d : String) :
    ((endWorkout s).cards.map (readCard d)).map SavedItem.time = s.cards.map Card.recorded := by
  simp only [endWorkout, List.map_map]
  refine List.map_congr_left ?_
  intro c _
  simp only [Function.comp]
  split <;> simp [readCard_time]

/-- C3: with a non-empty plan and no edit in progress, `saveWorkout` appends
one history entry whose `totalTime` is the session-wide stopwatch value when
that value is positive, and otherwise the sum of all cards' recorded
elapsed seconds. -/
theorem save_totalTime (s : AppState) (hne : s.cards.length ≠ 0)
    (he : s.editIndex = Option.none) :
    ∃ w : Workout, (saveWorkout s).workouts = s.workouts ++ [w]
      ∧ w.totalTime = (if 0 < s.workoutSeconds then s.workoutSeconds
          else (s.cards.map Card.recorded).sum) := by
  by_cases hw : s.workoutStarted
  · have hl : ¬ ((endWorkout s).cards.length = 0) := by
      rw [endWorkout_cards_len]; exact hne
    simp only [saveWorkout, if_pos hw, if_neg hl, endWorkout_editIndex, he,
      endWorkout_workouts, endWorkout_seconds, endWorkout_now, endWorkout_settings,
      endWorkout_items_time]
    exact ⟨_, rfl, rfl⟩
  · have hl : ¬ (s.cards.length = 0) := hne
    simp only [saveWorkout, if_neg hw, if_neg hl, he]
    refine ⟨_, rfl, ?_⟩
    simp only [List.map_map]
    have hmt : s.cards.map (SavedItem.time ∘ readCard s.settings.defaultUnit)
        = s.cards.map Card.recorded :=
      List.map_congr_left (fun c _ => readCard_time _ c)
    rw [hmt]

/-- An `addExercise()` call with all defaults. -/
def defaultEx : ExInit := {}

/-- Trace A (claim C2): fresh start over [exercise, break(1s), exercise,
exercise, exercise]; then every button pressed is visible at that moment:
mark the break done early, mark exercise 0 done (control advances into the
already-done break and restarts its countdown), press End (the pause skips the
`break-done` card, leaving its interval live), let that interval expire (it
auto-starts row 2's stopwatch while paused), mark exercise 3 done (moving
`activeRowIndex` to 4 without stopping row 2), then press Resume. -/
def seqA1 : AppState := addExercise initState defaultEx

def seqA2 : AppState := addBreak seqA1 1

def seqA3 : AppState := addExercise seqA2 defaultEx

def seqA4 : AppState := addExercise seqA3 defaultEx

def seqA5 : AppState := addExercise seqA4 defaultEx

def seqA6 : AppState := startWorkout seqA5

def seqA7 : AppState := workoutTick seqA6

def seqA8 : AppState := completeRow seqA7 1

def seqA9 : AppState := completeRow seqA8 0

def seqA10 : AppState := startWorkout seqA9

def seqA11 : AppState := breakTick seqA10 1

def seqA12 : AppState := completeRow seqA11 3

def seqA13 : AppState := startWorkout seqA12

/-- C2: the at-most-one-running-stopwatch invariant fails on the code: after
trace A — built only from add-item, start, pause, resume, manual
complete-active and break auto-completion ticks — the workout is running and
the stopwatches of both row 2 and row 4 are live simultaneously. -/
theorem two_stopwatches_after_resume :
    getTimer seqA13.rowTimers 2 = true ∧ getTimer seqA13.rowTimers 4 = true
    ∧ seqA13.workoutStarted = true ∧ (2 : Nat) ≠ 4 := by decide

/-- Trace B (claims C5 and C8): [break(1s), exercise]; fresh start, let the
break expire (auto-advance to the exercise), then press its +10s button. -/
def seqB1 : AppState := addBreak initState 1

def seqB2 : AppState := addExercise seqB1 defaultEx

def seqB3 : AppState := startWorkout seqB2

def seqB4 : AppState := breakTick seqB3 0

def seqB5 : AppState := btnAdd seqB4 0

/-- C5: pause does not stop every live timer: after trace B, pressing End
(pause) — and likewise `endWorkout`, which `saveWorkout` uses — leaves the
break's countdown interval running, because the cleanup loop skips cards that
carry the `break-done` class; ticks keep firing after pause has returned. -/
theorem dangling_countdown_after_pause :
    ((startWorkout seqB5).cards[0]?).map Card.countdown = some Cd.running
    ∧ (startWorkout seqB5).workoutStarted = false
    ∧ (startWorkout seqB5).workoutTimerRunning = false
    ∧ getTimer (startWorkout seqB5).rowTimers 0 = false
    ∧ getTimer (startWorkout seqB5).rowTimers 1 = false
    ∧ ((endWorkout seqB5).cards[0]?).map Card.countdown = some Cd.running := by decide

/-- C8: adjusting a completed break does set `remainingSeconds` to
`max(0, remaining + delta)` and does resume ticking, but the completion mark
(the `break-done` class) is NOT removed: part_000 has no `clearCompleteState`
(only the script.js variant removes the class in its +10s, -10s and Reset
handlers). -/
theorem adjust_keeps_done_mark :
    ((seqB4.cards[0]?).map (fun c => (c.timeLeft, c.breakDone, c.countdown))
        = some (0, true, Cd.off))
    ∧ ((btnAdd seqB4 0).cards[0]?).map (fun c => (c.timeLeft, c.breakDone, c.countdown))
        = some (10, true, Cd.running)
    ∧ ((btnSub seqB4 0).cards[0]?).map (fun c => (c.timeLeft, c.breakDone))
        = some (0, true) := by decide

/-- Trace C (claim C6): add one exercise, start the workout, remove the card
(the remove button stays available while running), then save. -/
def seqC1 : AppState := addExercise initState defaultEx

def seqC2 : AppState := startWorkout seqC1

def seqC3 : AppState := removeCard seqC2 0

/-- C6: `saveWorkout` invoked with zero plan items while a workout is running
does NOT leave all state unchanged: it first runs `endWorkout` (stopping the
timers and clearing the run flags) and only then rejects with the blocking
notice; history stays empty but the run state differs from before the call. -/
theorem save_empty_plan_mutates_state :
    seqC3.workoutStarted = true ∧ getTimer seqC3.rowTimers 0 = true
    ∧ seqC3.workoutTimerRunning = true
    ∧ (saveWorkout seqC3).workouts = ([] : List Workout)
    ∧ (saveWorkout seqC3).modalText = some ("Add at least one exercise!")
    ∧ (saveWorkout seqC3).workoutStarted ≠ seqC3.workoutStarted
    ∧ getTimer (saveWorkout seqC3).rowTimers 0 = false
    ∧ (saveWorkout seqC3).workoutTimerRunning = false := by decide

/-- C6 (amended): with zero plan items, `startWorkout` only shows the blocking
notice and changes nothing else; `saveWorkout` shows the notice and leaves
history and settings unchanged, and when no workout is running it changes
nothing else — but when a workout is running it first applies `endWorkout`
before rejecting. -/
theorem empty_plan_rejection (s : AppState) (h : s.cards = []) :
    (s.btnActive = false →
      startWorkout s = { s with modalText := some ("Add at least one exercise first.") })
    ∧ (s.workoutStarted = false →
      saveWorkout s = { s with modalText := some ("Add at least one exercise!") })
    ∧ (s.workoutStarted = true →
      saveWorkout s = { endWorkout s with modalText := some ("Add at least one exercise!") }
      ∧ (saveWorkout s).workouts = s.workouts
      ∧ (saveWorkout s).settings = s.settings) := by
  refine ⟨?_, ?_, ?_⟩
  · intro hb
    simp [startWorkout, hb, h]
  · intro hw
    simp [saveWorkout, hw, h]
  · intro hw
    refine ⟨?_, ?_, ?_⟩
    · simp [saveWorkout, hw, h, endWorkout]
    · simp [saveWorkout, hw, h, endWorkout]
    · simp [saveWorkout, hw, h, endWorkout]

theorem empty_plan_rejection_witness :
    startWorkout initState
      = { initState with modalText := some ("Add at least one exercise first.") }
    ∧ saveWorkout initState
      = { initState with modalText := some ("Add at least one exercise!") } := by
  have h := empty_plan_rejection initState rfl
  exact ⟨h.1 rfl, h.2.1 rfl⟩

theorem buildProgressData_all (ws : List Workout) (h : ws ≠ []) :
    buildProgressData ws "__all"
      = { labels := ws.map Workout.date
          difficultyData := ws.map avgDifficulty
          weightData := ws.map sessionVolume
          durationData := ws.map Workout.totalTime
          breakData := ws.map (fun w => ((sessionBreakAll w : Nat) : Rat)) } := by
  unfold buildProgressData
  rw [if_pos rfl]
  dsimp only
  split
  · next hcond =>
    have h2 : (ws.map Workout.date).length = 0 := hcond
    rw [List.length_map] at h2
    exact absurd (List.length_eq_zero.mp h2) h
  · rfl

theorem buildProgressData_filtered (ws : List Workout) (sel : String) (hs : sel ≠ "__all")
    (hm : (ws.filter (fun w => (matchesIn sel w).length ≠ 0)) ≠ []) :
    buildProgressData ws sel
      = { labels := (ws.filter (fun w => (matchesIn sel w).length ≠ 0)).map Workout.date
          difficultyData :=
            (ws.filter (fun w => (matchesIn sel w).length ≠ 0)).map (filteredDifficulty sel)
          weightData :=
            (ws.filter (fun w => (matchesIn sel w).length ≠ 0)).map (filteredVolume sel)
          durationData :=
            (ws.filter (fun w => (matchesIn sel w).length ≠ 0)).map (filteredDuration sel)
          breakData :=
            (ws.filter (fun w => (matchesIn sel w).length ≠ 0)).map (filteredBreak sel) } := by
  unfold buildProgressData
  rw [if_neg hs]
  dsimp only
  split
  · next hcond =>
    have h2 : (((ws.filter (fun w => (matchesIn sel w).length ≠ 0)).map
        Workout.date).length = 0) := hcond
    rw [List.length_map] at h2
    exact absurd (List.length_eq_zero.mp h2) hm
  · rfl

/-- Default-unit kg settings, as in the claims' examples. -/
def kgSettings : Settings := { defaultUnit := "kg", appearance := "light" }

/-- Default-unit lbs settings. -/
def lbsSettings : Settings := { defaultUnit := "lbs", appearance := "light" }

/-- Modelled from the spec: the volume formula as the claim states it — sum
over matching items of (sum of the item's weights, each converted to the
default unit) times reps.  The conversion helper `toDefaultUnit` is the
script.js implementation the claim cites. -/
def claimVolume (st : Settings) (w : Workout) : Rat :=
  ((nonBreakItems w).map (fun e =>
    ((e.weights.map (fun v => toDefaultUnit st v e.unit)).sum) * (e.reps : Rat))).sum

/-- The claims' example exercise: weights=[100], unit lbs, reps 1. -/
def c4item : SavedItem :=
  { isBreak := false, name := "Bench", reps := 1, weights := [100], unit := "lbs"
    dropset := false, difficulty := 5, duration := 0, time := 0 }

/-- A one-exercise session holding `c4item`. -/
def c4w : Workout := { date := "d1", exercises := [c4item], totalTime := 0 }

/-- C4 counterexample: for the claims' example (weights=[100], unit lbs,
reps 1, default unit kg) the aggregator reports volume 100 — the raw weight
sum times reps with no unit conversion — not the claimed 45.3592. -/
theorem volume_unconverted_cx :
    (buildProgressData [c4w] "__all").weightData = [(100 : Rat)]
    ∧ claimVolume kgSettings c4w = (453592 / 10000 : Rat)
    ∧ (buildProgressData [c4w] "__all").weightData ≠ [claimVolume kgSettings c4w] := by
  have h1 : (buildProgressData [c4w] "__all").weightData = [(100 : Rat)] := by
    simp [buildProgressData, c4w, c4item, sessionVolume, itemVolume, nonBreakItems]
  have h2 : claimVolume kgSettings c4w = (453592 / 10000 : Rat) := by
    simp [claimVolume, c4w, c4item, nonBreakItems, toDefaultUnit, kgSettings]
    norm_num
  refine ⟨h1, h2, ?_⟩
  rw [h1, h2]
  norm_num

/-- C4 (amended): under every filter the aggregated volume of a session is the
sum over its matching non-break items of (raw sum of weights, with no unit
conversion) times reps (a falsy reps counts as 1) — for "__all" over all
non-break items, and under an exercise-name filter over the name-matching
items of each session that has one; the factors 0.453592 and 2.20462 live only
in the script.js variant's `toDefaultUnit`, which the aggregator of the
primary variant never calls. -/
theorem volume_amended (ws : List Workout) (h : ws ≠ []) :
    (buildProgressData ws "__all").weightData
      = ws.map (fun w => ((nonBreakItems w).map (fun e =>
          (e.weights.foldl (· + ·) 0) * (if e.reps = 0 then 1 else (e.reps : Rat)))).sum)
    ∧ (∀ sel : String, sel ≠ "__all" →
        (ws.filter (fun w => (matchesIn sel w).length ≠ 0)) ≠ [] →
        (buildProgressData ws sel).weightData
          = (ws.filter (fun w => (matchesIn sel w).length ≠ 0)).map (fun w =>
              ((matchesIn sel w).map (fun e =>
                (e.weights.foldl (· + ·) 0) * (if e.reps = 0 then 1 else (e.reps : Rat)))).sum))
    ∧ (∀ v : Rat, v ≠ 0 →
        toDefaultUnit kgSettings v "lbs" = v * (453592 / 1000000 : Rat))
    ∧ (∀ v : Rat, v ≠ 0 →
        toDefaultUnit lbsSettings v "kg" = v * (220462 / 100000 : Rat)) := by
  refine ⟨?_, ?_, ?_, ?_⟩
  · rw [buildProgressData_all ws h]
    rfl
  · intro sel hs hm
    rw [buildProgressData_filtered ws sel hs hm]
    rfl
  · intro v hv
    simp only [toDefaultUnit, kgSettings]
    rw [if_neg hv]
    simp
  · intro v hv
    simp only [toDefaultUnit, lbsSettings]
    rw [if_neg hv]
    simp

theorem volume_amended_witness :
    (buildProgressData [c4w] "__all").weightData = [(100 : Rat)]
    ∧ (buildProgressData [c4w] "Bench").weightData = [(100 : Rat)]
    ∧ toDefaultUnit kgSettings 100 "lbs" = (453592 / 10000 : Rat) := by
  have h := volume_amended [c4w] (by decide)
  refine ⟨?_, ?_, ?_⟩
  · rw [h.1]
    simp [c4w, c4item, nonBreakItems]
  · rw [h.2.1 "Bench" (by decide) (by decide)]
    simp [c4w, c4item, matchesIn, nameMatches, jsTrim]
  · rw [h.2.2.1 100 (by norm_num)]
    norm_num

/-- A break item with zero recorded time and planned duration 60. -/
def c7b : SavedItem :=
  { isBreak := true, name := "", reps := 0, weights := [], unit := ""
    dropset := false, difficulty := 0, duration := 60, time := 0 }

/-- A one-break session holding `c7b`. -/
def c7w : Workout := { date := "d", exercises := [c7b], totalTime := 0 }

/-- Modelled from the spec: break time for "__all" as the claim states it —
the sum of break items' recorded elapsed seconds, with no fallback. -/
def claimBreakTimeAll (w : Workout) : Nat :=
  ((w.exercises.filter (fun e => e.isBreak)).map SavedItem.time).sum

/-- C7 counterexample: a session whose only break has `elapsedSeconds = 0` and
planned duration 60 aggregates `breakTime = 60`, because the code reads
`parseInt(br.time || br.duration || 0)` and the falsy zero falls back to the
planned duration; the claim's sum of elapsed seconds is 0. -/
theorem breakTime_fallback_cx :
    (buildProgressData [c7w] "__all").breakData = [(60 : Rat)]
    ∧ claimBreakTimeAll c7w = 0
    ∧ (buildProgressData [c7w] "__all").breakData
        ≠ [((claimBreakTimeAll c7w : Nat) : Rat)] := by
  decide

/-- C7 (amended): for "__all", `breakTime[i]` is the sum over break items of
their recorded elapsed seconds EXCEPT that an item whose elapsed value is 0
contributes its planned duration instead; under an exercise-name filter the
entry for each session with a matching item is the mean of the same
elapsed-or-duration values of break items immediately following a matching
exercise (0 when none). -/
theorem breakTime_amended (ws : List Workout) (h : ws ≠ []) (sel : String)
    (hs : sel ≠ "__all") :
    ((buildProgressData ws "__all").breakData
      = ws.map (fun w => ((((w.exercises.filter (fun e => e.isBreak)).map
          (fun b => if b.time ≠ 0 then b.time else b.duration)).sum : Nat) : Rat)))
    ∧ ((ws.filter (fun w => (matchesIn sel w).length ≠ 0)) ≠ [] →
        (buildProgressData ws sel).breakData
          = (ws.filter (fun w => (matchesIn sel w).length ≠ 0)).map (filteredBreak sel)) := by
  constructor
  · rw [buildProgressData_all ws h]
    rfl
  · intro hm
    rw [buildProgressData_filtered ws sel hs hm]

/-- A session with an exercise named Squat followed by a break with recorded
elapsed time 7. -/
def c7w2 : Workout :=
  { date := "d2"
    exercises :=
      [ { isBreak := false, name := "Squat", reps := 5, weights := [100], unit := "kg"
          dropset := false, difficulty := 5, duration := 0, time := 30 }
        , c7b
        , { isBreak := true, name := "", reps := 0, weights := [], unit := ""
            dropset := false, difficulty := 0, duration := 10, time := 7 } ]
    totalTime := 0 }

theorem breakTime_amended_witness :
    (buildProgressData [c7w] "__all").breakData = [(60 : Rat)]
    ∧ (buildProgressData [c7w2] "Squat").breakData = [(60 : Rat)] := by
  have h1 := (breakTime_amended [c7w] (by decide) "Squat" (by decide)).1
  have h2 := (breakTime_amended [c7w2] (by decide) "Squat" (by decide)).2 (by decide)
  constructor
  · rw [h1]; decide
  · rw [h2]
    simp [filteredBreak, aftersVals, matchesIn, nameMatches, c7w2, c7b,
      breakContribution, jsTrim]

theorem pad2_len_two : ∀ n, n < 100 → (pad2 n).length = 2 := by decide

/-- C10: the formatter always yields a well-formed clock string: non-positive
(clamped) input renders as 00:00, and the missing/non-numeric entry point
(`parseInt` yielding NaN, turned into 0 by the falsy fallback) does too; the
minute and second fields are always below 60 and zero-padded to exactly two
digits; inputs below one hour render as MM:SS and others as H:MM:SS. -/
theorem fmtTime_wellformed (secs : Int) :
    (secs ≤ 0 → fmtTime secs = "00:00")
    ∧ fmtTimeInput Option.none = "00:00"
    ∧ (secs.toNat % 3600) / 60 < 60
    ∧ secs.toNat % 60 < 60
    ∧ (pad2 ((secs.toNat % 3600) / 60)).length = 2
    ∧ (pad2 (secs.toNat % 60)).length = 2
    ∧ (secs.toNat < 3600 →
        fmtTime secs = pad2 (secs.toNat / 60) ++ ":" ++ pad2 (secs.toNat % 60))
    ∧ (3600 ≤ secs.toNat →
        fmtTime secs = Nat.repr (secs.toNat / 3600) ++ ":"
          ++ pad2 ((secs.toNat % 3600) / 60) ++ ":" ++ pad2 (secs.toNat % 60)) := by
  have hm : (secs.toNat % 3600) / 60 < 60 := by omega
  have hs : secs.toNat % 60 < 60 := by omega
  refine ⟨?_, by decide, hm, hs, pad2_len_two _ (by omega), pad2_len_two _ (by omega), ?_, ?_⟩
  · intro h
    have h0 : secs.toNat = 0 := by omega
    simp only [fmtTime, h0]
    decide
  · intro h
    have h1 : secs.toNat / 3600 = 0 := by omega
    have h2 : secs.toNat % 3600 = secs.toNat := Nat.mod_eq_of_lt h
    simp only [fmtTime, h1, h2]
    simp
  · intro h
    have h1 : 0 < secs.toNat / 3600 := Nat.div_pos h (by norm_num)
    simp only [fmtTime, if_pos h1]

theorem fmtTime_wellformed_witness :
    fmtTime (-7) = "00:00" ∧ fmtTime 3725 = "1:02:05" ∧ fmtTime 65 = "01:05" := by
  refine ⟨(fmtTime_wellformed (-7)).1 (by decide), ?_, ?_⟩
  · have h := (fmtTime_wellformed 3725).2.2.2.2.2.2.2 (by decide)
    rw [h]
    decide
  · have h := (fmtTime_wellformed 65).2.2.2.2.2.2.1 (by decide)
    rw [h]
    decide

/-- The claims' example break: planned 60, remaining 37, elapsed 23, with a
running countdown and 11 stopwatch seconds on its time display. -/
def c1card : Card :=
  { isBreak := true, recorded := 11, exDone := false, name := "", reps := 0
    singleWeight := 0, dropsetWeights := [], unit := "", dropset := false, difficulty := 0
    inputValue := 60, plannedDuration := 60, timeLeft := 37, elapsed := 23
    countdown := Cd.running, breakDone := false, hasInput := false }

/-- A running session whose plan is just `c1card`. -/
def c1state : AppState :=
  { initState with
    cards := [c1card]
    workoutStarted := true
    btnActive := true
    workoutTimerRunning := true
    rowTimers := [true]
    activeRowIndex := some 0 }

/-- The same break one tick before natural expiry. -/
def c1state2 : AppState :=
  { c1state with cards := [{ c1card with timeLeft := 1 }] }

theorem break_elapsed_truth_witness :
    ((btnSkip c1state 0).cards[0]?).map Card.recorded = some 23
    ∧ ((completeRow c1state 0).cards[0]?).map Card.recorded = some 23
    ∧ ((breakTick c1state2 0).cards[0]?).map Card.recorded = some 24 := by
  have h := break_elapsed_truth c1state 0 c1card rfl rfl
  have h2 := break_elapsed_truth c1state2 0 { c1card with timeLeft := 1 } rfl rfl
  exact ⟨h.1, h.2.1, (h2.2.2 rfl rfl).1⟩

/-- An exercise card with `n` recorded stopwatch seconds. -/
def exCard (n : Nat) : Card :=
  { isBreak := false, recorded := n, exDone := false, name := "Squat", reps := 10
    singleWeight := 0, dropsetWeights := [], unit := "kg", dropset := false, difficulty := 5
    inputValue := 0, plannedDuration := 0, timeLeft := 0, elapsed := 0
    countdown := Cd.off, breakDone := false, hasInput := false }

/-- A plan that was never started, with item times 10, 0 and 5. -/
def c3state : AppState :=
  { initState with cards := [exCard 10, exCard 0, exCard 5] }

theorem save_totalTime_witness :
    ∃ w : Workout, (saveWorkout c3state).workouts = c3state.workouts ++ [w]
      ∧ w.totalTime = 15 := by
  obtain ⟨w, h1, h2⟩ := save_totalTime c3state (by decide) rfl
  refine ⟨w, h1, ?_⟩
  rw [h2]
  decide

/-- A break whose duration field currently reads 45 while stale countdown
state (remaining 9, elapsed 4) is still stored on the card. -/
def c9break : Card :=
  { isBreak := true, recorded := 0, exDone := false, name := "", reps := 0
    singleWeight := 0, dropsetWeights := [], unit := "", dropset := false, difficulty := 0
    inputValue := 45, plannedDuration := 60, timeLeft := 9, elapsed := 4
    countdown := Cd.off, breakDone := false, hasInput := true }

/-- A running session: exercise at row 0, the stale break at row 1. -/
def c9state : AppState :=
  { initState with cards := [exCard 7, c9break], workoutStarted := true }

theorem break_reinit_witness :
    ((completeRow c9state 0).cards[1]?).map tlEl = some (45, 0) := by
  have h := (break_reinit_on_advance c9state 0 (exCard 7) c9break rfl rfl rfl rfl).1
  rw [h]
  decide
